import Mathlib

set_option maxHeartbeats 1000000

/-!
Shallow embedding of the client-side session-lifecycle and HTTP-client
subsystem of `src/frontend/src/api.js` (Multi-Organization Chatbot System
frontend).

Modelling conventions:
* `localStorage` is modelled by the three keys the subsystem reads/writes
  (`token`, `user`, `logoutReason`) inside `ClientState`; `localStorage.clear()`
  clears all of them.
* DOM side effects (add/remove of the five activity listeners, navigation,
  reload) and network calls are recorded in an event trace `List Ev`, in the
  order the corresponding JS statements execute, so ordering claims
  ("cleanup before navigation") become statements about trace order.
* `JSON.parse(atob(token.split(".")[1]))` is a browser builtin; it is
  abstracted as a parameter `decode : String -> Option Payload` (`none` models
  the decode throwing).  The session code only ever reads the numeric `exp`
  claim of the payload, so `Payload` carries just that.  A payload whose `exp`
  field is absent or non-numeric is modelled by `exp = none` (JS `undefined`);
  JS number truthiness (`0` is falsy) is modelled explicitly at each use site.
* The runtime is single-threaded and cooperative; the throttle flag is set
  synchronously before any suspension point, so invocations of the activity
  handler are modelled as atomic steps.
-/

/-- A JSON value, as needed to model server error payloads and the JS
builtins `String()` and `JSON.stringify` that the error-extraction code
relies on.  `null` also stands for JS `undefined` where only truthiness and
join-coercion matter. -/
inductive Json where
  | null
  | bool (b : Bool)
  | num (n : Int)
  | str (s : String)
  | arr (elems : List Json)
  | obj (fields : List (String × Json))
deriving Repr

/-- JS truthiness of a JSON value (`0`, `""`, `null`/`undefined`, `false`
are falsy; every array and object is truthy). -/
def Json.truthy : Json → Bool
  | .null => false
  | .bool b => b
  | .num n => n != 0
  | .str s => s != ""
  | .arr _ => true
  | .obj _ => true

/-- JS property access `v.key` on a JSON value: field lookup on objects,
`undefined` (here `none`) on everything else. -/
def jsGet : Json → String → Option Json
  | .obj fs, k => fs.lookup k
  | _, _ => none

/-- Truthiness of a possibly-`undefined` JS value. -/
def jsTruthyOpt (v : Option Json) : Bool :=
  match v with
  | some j => j.truthy
  | none => false

/-- Modelled JS builtin `String(v)` coercion: strings unchanged, numbers and
booleans printed, `null` prints as "null", arrays join their elements with
"," (with `null`/`undefined` elements contributing the empty string, as in
`Array.prototype.join`), plain objects print as "[object Object]". -/
def Json.jsString : Json → String
  | .null => "null"
  | .bool b => cond b "true" "false"
  | .num n => toString n
  | .str s => s
  | .obj _ => "[object Object]"
  | .arr [] => ""
  | .arr (x :: rest) =>
      (match x with
       | .null => ""
       | j => Json.jsString j) ++
      (match rest with
       | [] => ""
       | y :: t => "," ++ Json.jsString (.arr (y :: t)))

/-- JS `Array.prototype.join(sep)` after a `map` producing JSON values:
each element is coerced with `String()` except `null`/`undefined`, which
contribute the empty string. -/
def jsJoin (sep : String) : List Json → String
  | [] => ""
  | [x] =>
      (match x with
       | .null => ""
       | j => j.jsString)
  | x :: y :: rest =>
      (match x with
       | .null => ""
       | j => j.jsString) ++ sep ++ jsJoin sep (y :: rest)

/-- Escape of one character inside a JSON string literal (modelled JS
`JSON.stringify`; control-character escapes are elided, no claim depends on
them). -/
def jsonQuoteChar (c : Char) : String :=
  if c = '"' then "\\\"" else if c = '\\' then "\\\\" else String.singleton c

/-- A JSON string literal with basic escaping. -/
def jsonQuote (s : String) : String :=
  "\"" ++ String.join (s.data.map jsonQuoteChar) ++ "\""

mutual

/-- Modelled JS builtin `JSON.stringify` on the `Json` model (no cycles, so
it never throws). -/
def Json.stringify : Json → String
  | .null => "null"
  | .bool b => cond b "true" "false"
  | .num n => toString n
  | .str s => jsonQuote s
  | .arr xs => "[" ++ Json.stringifyList xs ++ "]"
  | .obj fs => "\x7b" ++ Json.stringifyFields fs ++ "\x7d"

/-- Comma-separated stringification of array elements. -/
def Json.stringifyList : List Json → String
  | [] => ""
  | [x] => Json.stringify x
  | x :: y :: rest => Json.stringify x ++ "," ++ Json.stringifyList (y :: rest)

/-- Comma-separated stringification of object fields. -/
def Json.stringifyFields : List (String × Json) → String
  | [] => ""
  | [(k, v)] => jsonQuote k ++ ":" ++ Json.stringify v
  | (k, v) :: f :: rest =>
      jsonQuote k ++ ":" ++ Json.stringify v ++ "," ++ Json.stringifyFields (f :: rest)

end

/-- Character-list helper for JS `String.prototype.includes`: does the
pattern occur at the head? -/
def startsWithChars : List Char → List Char → Bool
  | [], _ => true
  | _ :: _, [] => false
  | p :: ps, c :: cs => p == c && startsWithChars ps cs

/-- Character-list helper for JS `String.prototype.includes`: does the
pattern occur anywhere? -/
def includesChars (pat : List Char) : List Char → Bool
  | [] => pat.isEmpty
  | c :: cs => startsWithChars pat (c :: cs) || includesChars pat cs

/-- Modelled JS `s.includes(pat)`. -/
def jsIncludes (s pat : String) : Bool := includesChars pat.data s.data

/-- The decoded JWT payload, as far as `api.js` inspects it: only the
numeric `exp` claim is ever read (`none` = absent or non-numeric). -/
structure Payload where
  exp : Option Int
deriving Repr, DecidableEq

/-- Observable side effects of the session-lifecycle code, in program
order.  `addEventListeners` / `removeEventListeners` stand for the block of
five `document.addEventListener` / `removeEventListener` calls on the shared
activity handler. -/
inductive Ev where
  | addEventListeners
  | removeEventListeners
  | storageRemove (key : String)
  | storageSet (key val : String)
  | storageClear
  | navigate (url : String)
  | reload
  | apiRefreshPost
  | apiLogoutPost
deriving Repr, DecidableEq

/-- The mutable process-wide state of the subsystem: the three storage keys,
the module flag `eventListenersAdded`, the actual DOM subscription state of
the five listeners, and the module flag `refreshThrottle`. -/
structure ClientState where
  token : Option String
  user : Option String
  logoutReason : Option String
  eventListenersAdded : Bool
  domSubscribed : Bool
  refreshThrottle : Bool
deriving Repr, DecidableEq

/-- `addSessionRefreshListeners` (api.js lines 204-214): guarded by the
`eventListenersAdded` flag, attaches the five listeners and sets the flag. -/
def addSessionRefreshListeners (s : ClientState) : ClientState × List Ev :=
  if s.eventListenersAdded then (s, [])
  else
    ({ s with eventListenersAdded := true, domSubscribed := true },
     [Ev.addEventListeners])

/-- `removeSessionRefreshListeners` (api.js lines 217-227): guarded by the
`eventListenersAdded` flag, detaches the five listeners and clears the flag. -/
def removeSessionRefreshListeners (s : ClientState) : ClientState × List Ev :=
  if s.eventListenersAdded then
    ({ s with eventListenersAdded := false, domSubscribed := false },
     [Ev.removeEventListeners])
  else (s, [])

/-- `checkTokenExpiry` (api.js lines 119-147).  The JS guard is
`payload.exp && payload.exp < currentTime`: an absent `exp` or `exp = 0` is
falsy, so only a nonzero `exp` strictly below `now` triggers the expiry
branch.  A decode failure lands in the catch block, which clears `token` and
`user` and navigates without touching the listeners or `logoutReason`. -/
def checkTokenExpiry (decode : String → Option Payload) (now : Int)
    (s : ClientState) : ClientState × List Ev :=
  match s.token with
  | none => (s, [])
  | some tok =>
    match decode tok with
    | some payload =>
      match payload.exp with
      | some e =>
        if e ≠ 0 ∧ e < now then
          let r := removeSessionRefreshListeners s
          ({ r.1 with token := none, user := none,
                      logoutReason := some "session_expired" },
           r.2 ++ [Ev.storageRemove "token", Ev.storageRemove "user",
                   Ev.storageSet "logoutReason" "session_expired",
                   Ev.navigate "/login"])
        else (s, [])
      | none => (s, [])
    | none =>
      ({ s with token := none, user := none },
       [Ev.storageRemove "token", Ev.storageRemove "user",
        Ev.navigate "/login"])

/-- The part of an axios error response the subsystem reads. -/
structure AxiosResp where
  status : Int
  data : Option Json
deriving Repr

/-- The part of an axios error object the subsystem reads:
`error.config?.url`, `error.response` and `error.message`. -/
structure AxiosErrorMeta where
  configUrl : Option String
  response : Option AxiosResp
  message : String
deriving Repr

/-- `error.config?.url?.includes("/auth/refresh-session")`. -/
def urlHitsRefresh (u : Option String) : Bool :=
  match u with
  | some s => jsIncludes s "/auth/refresh-session"
  | none => false

/-- The response interceptor's error arm (api.js lines 95-116): a 401/403
on any URL other than the refresh-session endpoint runs the forced-logout
sequence (deregister listeners, remove `token` and `user`, write
`logoutReason`, reload); the original error is always propagated unchanged. -/
def responseInterceptorOnError (e : AxiosErrorMeta) (s : ClientState) :
    ClientState × List Ev × AxiosErrorMeta :=
  if urlHitsRefresh e.configUrl then (s, [], e)
  else
    let st : Option Int :=
      match e.response with
      | some r => some r.status
      | none => none
    if st = some 401 ∨ st = some 403 then
      let r := removeSessionRefreshListeners s
      ({ r.1 with token := none, user := none,
                  logoutReason := some "session_expired" },
       (r.2 ++ [Ev.storageRemove "token", Ev.storageRemove "user",
                Ev.storageSet "logoutReason" "session_expired", Ev.reload],
        e))
    else (s, [], e)

/-- `logout` (api.js lines 355-367): best-effort server notification, then
the `finally` block deregisters listeners and clears all of localStorage
regardless of the call's outcome. -/
def logout (s : ClientState) : ClientState × List Ev :=
  let r := removeSessionRefreshListeners s
  ({ r.1 with token := none, user := none, logoutReason := none },
   Ev.apiLogoutPost :: r.2 ++ [Ev.storageClear])

/-- Outcome of the awaited `api.post("/auth/refresh-session")` as the
handler reads it: `none` = the promise rejected (network error or HTTP
error; for the refresh URL the interceptor propagates it untouched),
`some (success, access_token)` = a resolved response with the truthiness of
`response.data.success` and the `access_token` field. -/
abbrev RefreshResult := Option (Bool × String)

/-- The cooldown passed to `setTimeout` after a completed refresh attempt
(api.js line 196). -/
def refreshCooldownMs : Nat := 30000

/-- The tail of `refreshSessionOnActivity` once all early exits are passed
(api.js lines 184-197): issue the refresh call, store the new token when
`response.data.success` is truthy, swallow failures, and schedule the
cooldown timer; the throttle flag stays set until that timer fires.  The
third component is the scheduled cooldown (`none` = no timer scheduled). -/
def doRefreshCall (r : RefreshResult) (s0 : ClientState) :
    ClientState × List Ev × Option Nat :=
  match r with
  | some (true, newTok) =>
      ({ s0 with token := some newTok },
       ([Ev.apiRefreshPost, Ev.storageSet "token" newTok],
        some refreshCooldownMs))
  | some (false, _) => (s0, ([Ev.apiRefreshPost], some refreshCooldownMs))
  | none => (s0, ([Ev.apiRefreshPost], some refreshCooldownMs))

/-- `refreshSessionOnActivity` (api.js lines 153-198).  The throttle gate is
tested and set synchronously; with no token, the listeners are removed and
the gate reopened; a decode failure or a non-positive `payload.exp - now`
reopens the gate and exits.  When `payload.exp` is absent, the JS
`remainingTime` is `NaN` and `NaN <= 0` is `false`, so the handler does NOT
take the early exit and proceeds to the network call. -/
def refreshSessionOnActivity (decode : String → Option Payload) (now : Int)
    (r : RefreshResult) (s : ClientState) :
    ClientState × List Ev × Option Nat :=
  if s.refreshThrottle then (s, ([], none))
  else
    let s0 := { s with refreshThrottle := true }
    match s0.token with
    | none =>
      let q := removeSessionRefreshListeners s0
      ({ q.1 with refreshThrottle := false }, (q.2, none))
    | some tok =>
      match decode tok with
      | none => ({ s0 with refreshThrottle := false }, ([], none))
      | some payload =>
        match payload.exp with
        | some e =>
          if e - now ≤ 0 then ({ s0 with refreshThrottle := false }, ([], none))
          else doRefreshCall r s0
        | none => doRefreshCall r s0

/-- One activity signal: its timestamp (seconds, as read by the handler)
and the outcome the refresh call would have if it is issued. -/
abbrev ActivitySignal := Int × RefreshResult

/-- A sequence of activity signals delivered within one throttle window
(so the scheduled cooldown timer never fires in between), processed by the
shared handler in order. -/
def runActivity (decode : String → Option Payload) :
    List ActivitySignal → ClientState → ClientState × List Ev
  | [], s => (s, [])
  | (t, r) :: rest, s =>
    let step := refreshSessionOnActivity decode t r s
    let tail := runActivity decode rest step.1
    (tail.1, step.2.1 ++ tail.2)

/-- Number of refresh network calls recorded in a trace. -/
def countRefreshCalls (tr : List Ev) : Nat :=
  tr.countP (fun ev => ev == Ev.apiRefreshPost)

/-- Number of listener-attachment blocks recorded in a trace. -/
def countAddListenerEvents (tr : List Ev) : Nat :=
  tr.countP (fun ev => ev == Ev.addEventListeners)

/-- The delay of the startup registration timer (api.js line 236). -/
def startupListenerDelayMs : Nat := 2000

/-- The period of the `setInterval` expiry poll (api.js line 150). -/
def checkExpiryIntervalMs : Nat := 10000

/-- The startup `setTimeout` callback (api.js lines 230-236): registers the
activity listeners whenever ANY token string is present in storage — the
token's validity is not checked here. -/
def startupListenerTimer (s : ClientState) : ClientState × List Ev :=
  match s.token with
  | some _ => addSessionRefreshListeners s
  | none => (s, [])

/-- The fields of a successful login response that the client persists. -/
structure LoginData where
  access_token : String
  user_id : Json
  email : Json
  full_name : Json
  role : Json
  organization_role : Json
  organization_id : Json
  admin_id : Json
deriving Repr

/-- The profile object serialized into the `user` storage key (api.js
lines 257-268). -/
def loginUserJson (d : LoginData) : Json :=
  .obj [("id", d.user_id), ("email", d.email), ("full_name", d.full_name),
        ("role", d.role), ("organization_role", d.organization_role),
        ("organization_id", d.organization_id), ("admin_id", d.admin_id)]

/-- The success path of `login` (api.js lines 252-284): persist the token
and serialized profile, then call `addSessionRefreshListeners()`
synchronously — there is no delay between the storage writes and the
registration. -/
def loginSuccess (d : LoginData) (s : ClientState) : ClientState × List Ev :=
  let u := Json.stringify (loginUserJson d)
  let s1 := { s with token := some d.access_token, user := some u }
  let r := addSessionRefreshListeners s1
  (r.1, Ev.storageSet "token" d.access_token ::
        Ev.storageSet "user" u :: r.2)

/-- How a modelled API operation settles its promise. -/
inductive ApiOutcome (α : Type) where
  | resolved (v : α)
  | rejected (message : String)
deriving Repr

/-- The message selected for one item of a FastAPI 422 `detail` list
(api.js lines 26-32): `err.msg` if truthy, else `err.message || err.detail
|| "Validation error"`. -/
def item422Msg (item : Json) : Json :=
  if jsTruthyOpt (jsGet item "msg") then (jsGet item "msg").getD .null
  else if jsTruthyOpt (jsGet item "message") then (jsGet item "message").getD .null
  else if jsTruthyOpt (jsGet item "detail") then (jsGet item "detail").getD .null
  else .str "Validation error"

/-- The message selected for one item of the direct-array / detail-array
fallback branches (api.js lines 49-53 and 59-62): a string item is returned
as is, otherwise `err.msg || err.message || err.detail || "Validation
error"`. -/
def fallbackItemMsg (item : Json) : Json :=
  match item with
  | .str s => .str s
  | _ =>
    if jsTruthyOpt (jsGet item "msg") then (jsGet item "msg").getD .null
    else if jsTruthyOpt (jsGet item "message") then (jsGet item "message").getD .null
    else if jsTruthyOpt (jsGet item "detail") then (jsGet item "detail").getD .null
    else .str "Validation error"

/-- Is the optional value a JSON array? (`Array.isArray`) -/
def isJsonArr (v : Option Json) : Bool :=
  match v with
  | some (.arr _) => true
  | _ => false

/-- The elements of an optional JSON array. -/
def jsGetArr (v : Option Json) : List Json :=
  match v with
  | some (.arr xs) => xs
  | _ => []

/-- Is the optional value a JSON string? (`typeof v === "string"`) -/
def isJsonStr (v : Option Json) : Bool :=
  match v with
  | some (.str _) => true
  | _ => false

/-- The contents of an optional JSON string. -/
def jsGetStr (v : Option Json) : String :=
  match v with
  | some (.str s) => s
  | _ => ""

/-- `extractErrorMessage` (api.js lines 14-78), translated branch by
branch.  The blanket guard is the truthiness of `error.response?.data`; the
branch chain then inspects the 422 detail list, a string `detail`, a string
`message`, a bare array, a non-422 `detail` array, and finally stringifies
objects / coerces primitives.  Outside the guard the result is
`error.message || defaultMessage`. -/
def extractErrorMessage (error : AxiosErrorMeta)
    (defaultMessage : String) : String :=
  let msgFallback := if error.message != "" then error.message else defaultMessage
  match error.response with
  | none => msgFallback
  | some resp =>
    match resp.data with
    | none => msgFallback
    | some d =>
      if d.truthy then
        let detail := jsGet d "detail"
        let message := jsGet d "message"
        if resp.status = 422 ∧ jsTruthyOpt detail ∧ isJsonArr detail then
          jsJoin ", " ((jsGetArr detail).map item422Msg)
        else if jsTruthyOpt detail ∧ isJsonStr detail then
          jsGetStr detail
        else if jsTruthyOpt message ∧ isJsonStr message then
          jsGetStr message
        else
          match d with
          | .arr xs => jsJoin ", " (xs.map fallbackItemMsg)
          | _ =>
            if jsTruthyOpt detail ∧ isJsonArr detail then
              jsJoin ", " ((jsGetArr detail).map fallbackItemMsg)
            else
              match d with
              | .obj fs => Json.stringify (.obj fs)
              | other => other.jsString
      else msgFallback

/-- `setPassword` (api.js lines 331-341): resolves with the response data,
rejects with `extractErrorMessage(error, "Failed to set password")`. -/
def setPassword (result : Except AxiosErrorMeta Json) : ApiOutcome Json :=
  match result with
  | .ok d => .resolved d
  | .error e => .rejected (extractErrorMessage e "Failed to set password")

/-- `changePassword` (api.js lines 343-353). -/
def changePassword (result : Except AxiosErrorMeta Json) : ApiOutcome Json :=
  match result with
  | .ok d => .resolved d
  | .error e => .rejected (extractErrorMessage e "Failed to change password")

/-- `error.response?.data?.detail || dflt` coerced by the `Error`
constructor to a string — the rejection message of the plain CRUD
operations (e.g. `createOrganization`, api.js lines 370-383). -/
def detailOrDefault (e : AxiosErrorMeta) (dflt : String) : String :=
  match e.response with
  | none => dflt
  | some resp =>
    match resp.data with
    | none => dflt
    | some d =>
      match jsGet d "detail" with
      | some v => if v.truthy then v.jsString else dflt
      | none => dflt

/-- `createOrganization` (api.js lines 370-383): rejects with
`new Error(error.response?.data?.detail || "Failed to create organization")`. -/
def createOrganization (result : Except AxiosErrorMeta Json) : ApiOutcome Json :=
  match result with
  | .ok d => .resolved d
  | .error e => .rejected (detailOrDefault e "Failed to create organization")

/-- `getChatSessions` (api.js lines 608-616): on ANY error the catch block
returns `[]` — the promise RESOLVES with an empty array, it never rejects. -/
def getChatSessions (result : Except AxiosErrorMeta Json) : ApiOutcome Json :=
  match result with
  | .ok d => .resolved d
  | .error _ => .resolved (.arr [])

/-- `getSessionMessages` (api.js lines 618-626): same swallow-and-resolve
shape as `getChatSessions`. -/
def getSessionMessages (result : Except AxiosErrorMeta Json) : ApiOutcome Json :=
  match result with
  | .ok d => .resolved d
  | .error _ => .resolved (.arr [])

/-- Modelled from the spec: "flattened into one joined human-readable
string" — the comma-space join of the individual validation messages, used
as the spec-side rendering that the code's 422 branch is compared
against. -/
def joinedMsgs : List String → String
  | [] => ""
  | [m] => m
  | m :: n :: rest => m ++ ", " ++ joinedMsgs (n :: rest)

/-! ## Theorems -/

/-- Claim C1: for every HTTP response with status 401 or 403 whose request
URL is not the refresh-session endpoint, the response interceptor performs
exactly one forced-termination sequence — deregisters the activity
listeners, removes the stored token and user profile, and writes
`logoutReason = "session_expired"` — with all of this cleanup strictly
before the reload side effect; for a 401/403 on the refresh-session
endpoint itself, no termination occurs and the error is propagated
unchanged. -/
theorem interceptor_forced_termination (e : AxiosErrorMeta) (s : ClientState) :
    (urlHitsRefresh e.configUrl = false →
      (e.response.map AxiosResp.status = some 401 ∨
       e.response.map AxiosResp.status = some 403) →
      responseInterceptorOnError e s =
        ({ s with token := none, user := none,
                  logoutReason := some "session_expired",
                  eventListenersAdded := false,
                  domSubscribed := s.domSubscribed && !s.eventListenersAdded },
         ((if s.eventListenersAdded then [Ev.removeEventListeners] else []) ++
            [Ev.storageRemove "token", Ev.storageRemove "user",
             Ev.storageSet "logoutReason" "session_expired", Ev.reload],
          e)))
  ∧ (urlHitsRefresh e.configUrl = true →
      responseInterceptorOnError e s = (s, ([], e))) := by
  obtain ⟨tk, us, lr, el, dom, th⟩ := s
  constructor
  · intro hurl hst
    obtain ⟨r, hr⟩ : ∃ r, e.response = some r := by
      cases h : e.response with
      | none => rcases hst with hc | hc <;> simp [h] at hc
      | some r => exact ⟨r, rfl⟩
    have hstat : r.status = 401 ∨ r.status = 403 := by
      rcases hst with hc | hc
      · left; rw [hr] at hc; simpa using hc
      · right; rw [hr] at hc; simpa using hc
    rcases hstat with h | h <;> cases el <;>
      simp [responseInterceptorOnError, hurl, hr, h,
            removeSessionRefreshListeners]
  · intro hurl
    simp [responseInterceptorOnError, hurl]

/-- Claim C1 witness: a 403 on the users endpoint with listeners
registered runs the forced-termination sequence and a 401 on the
refresh-session endpoint is propagated untouched. -/
theorem interceptor_forced_termination_witness :
    responseInterceptorOnError
        ⟨some "/users", some ⟨403, none⟩, "Request failed"⟩
        ⟨some "tok", some "usr", none, true, true, false⟩ =
      (⟨none, none, some "session_expired", false, false, false⟩,
       ([Ev.removeEventListeners, Ev.storageRemove "token",
         Ev.storageRemove "user",
         Ev.storageSet "logoutReason" "session_expired", Ev.reload],
        ⟨some "/users", some ⟨403, none⟩, "Request failed"⟩)) ∧
    responseInterceptorOnError
        ⟨some "/auth/refresh-session", some ⟨401, none⟩, "Request failed"⟩
        ⟨some "tok", some "usr", none, true, true, false⟩ =
      (⟨some "tok", some "usr", none, true, true, false⟩,
       ([], ⟨some "/auth/refresh-session", some ⟨401, none⟩, "Request failed"⟩)) := by
  constructor
  · exact ((interceptor_forced_termination
      ⟨some "/users", some ⟨403, none⟩, "Request failed"⟩
      ⟨some "tok", some "usr", none, true, true, false⟩).1 (by decide)
      (Or.inr (by simp)))
  · exact ((interceptor_forced_termination
      ⟨some "/auth/refresh-session", some ⟨401, none⟩, "Request failed"⟩
      ⟨some "tok", some "usr", none, true, true, false⟩).2 (by decide))

/-- Claim C2 counterexample: a stored token decoding to a payload with
`exp = 0` has its expiry timestamp strictly less than the current time 1,
yet `checkTokenExpiry` is a no-op — the JS guard `payload.exp &&
payload.exp < currentTime` treats the number 0 as falsy — so no cleanup,
no `logoutReason`, and no navigation happen, contradicting the claim as
stated. -/
theorem checkTokenExpiry_zero_exp_counterexample :
    (fun _ : String => some (Payload.mk (some 0))) "tok" =
        some (Payload.mk (some 0)) ∧
    (0 : Int) < 1 ∧
    checkTokenExpiry (fun _ => some (Payload.mk (some 0))) 1
        ⟨some "tok", some "usr", none, true, true, false⟩ =
      (⟨some "tok", some "usr", none, true, true, false⟩, []) := by
  decide

/-- Claim C2 (amended: the expired branch fires only for a truthy, i.e.
nonzero, `exp` claim): `checkTokenExpiry` is a no-op when no token is
stored; when the stored token decodes to a payload whose `exp` claim is
nonzero and strictly less than the current time, it deregisters the
activity listeners, removes the stored token and user profile, writes
`logoutReason = "session_expired"`, and navigates to the login view, with
all cleanup strictly before the navigation event; otherwise (exp absent,
zero, or not strictly in the past) it is a no-op leaving storage
unchanged. -/
theorem checkTokenExpiry_spec (decode : String → Option Payload) (now : Int)
    (s : ClientState) :
    (s.token = none → checkTokenExpiry decode now s = (s, [])) ∧
    (∀ tok p e, s.token = some tok → decode tok = some p → p.exp = some e →
      e ≠ 0 → e < now →
      checkTokenExpiry decode now s =
        ({ s with token := none, user := none,
                  logoutReason := some "session_expired",
                  eventListenersAdded := false,
                  domSubscribed := s.domSubscribed && !s.eventListenersAdded },
         (if s.eventListenersAdded then [Ev.removeEventListeners] else []) ++
           [Ev.storageRemove "token", Ev.storageRemove "user",
            Ev.storageSet "logoutReason" "session_expired",
            Ev.navigate "/login"])) ∧
    (∀ tok p, s.token = some tok → decode tok = some p →
      (∀ e, p.exp = some e → e = 0 ∨ now ≤ e) →
      checkTokenExpiry decode now s = (s, [])) := by
  obtain ⟨tk, us, lr, el, dom, th⟩ := s
  refine ⟨?_, ?_, ?_⟩
  · intro htok
    simp only at htok
    simp [checkTokenExpiry, htok]
  · intro tok p e htok hdec hexp hne hlt
    simp only at htok
    cases el <;>
      simp [checkTokenExpiry, htok, hdec, hexp, hne, hlt,
            removeSessionRefreshListeners]
  · intro tok p hvalid htok hdec
    simp only at hvalid
    cases hexp : p.exp with
    | none => simp [checkTokenExpiry, hvalid, htok, hexp]
    | some e =>
      rcases hdec e hexp with h0 | hle
      · simp [checkTokenExpiry, hvalid, htok, hexp, h0]
      · have : ¬ (e ≠ 0 ∧ e < now) := by
          rintro ⟨-, hlt⟩
          exact absurd hle (not_le.mpr hlt)
        simp [checkTokenExpiry, hvalid, htok, hexp, this]

/-- Claim C2 witness: a token with `exp = 5` at current time 10 is cleaned
up (listeners removed first) and the client navigates to the login view. -/
theorem checkTokenExpiry_spec_witness :
    checkTokenExpiry (fun _ => some (Payload.mk (some 5))) 10
        ⟨some "tok", some "usr", none, true, true, false⟩ =
      (⟨none, none, some "session_expired", false, false, false⟩,
       [Ev.removeEventListeners, Ev.storageRemove "token",
        Ev.storageRemove "user",
        Ev.storageSet "logoutReason" "session_expired",
        Ev.navigate "/login"]) := by
  have h := (checkTokenExpiry_spec (fun _ => some (Payload.mk (some 5))) 10
      ⟨some "tok", some "usr", none, true, true, false⟩).2.1
      "tok" (Payload.mk (some 5)) 5 rfl rfl rfl (by decide) (by decide)
  simpa using h

/-- Claim C5: a stored token that cannot be decoded makes `checkTokenExpiry`
fail closed: it deletes the stored token and user profile and navigates to
the login view, but does not write `logoutReason` (the field is left
unchanged and the trace contains no `logoutReason` write), unlike the
expired-token branch. -/
theorem undecodable_token_fails_closed (decode : String → Option Payload)
    (now : Int) (s : ClientState) (tok : String)
    (htok : s.token = some tok) (hdec : decode tok = none) :
    checkTokenExpiry decode now s =
      ({ s with token := none, user := none },
       [Ev.storageRemove "token", Ev.storageRemove "user",
        Ev.navigate "/login"]) ∧
    (checkTokenExpiry decode now s).1.logoutReason = s.logoutReason ∧
    (∀ k v, (Ev.storageSet k v) ∉ (checkTokenExpiry decode now s).2) := by
  obtain ⟨tk, us, lr, el, dom, th⟩ := s
  simp only at htok
  refine ⟨?_, ?_, ?_⟩ <;> simp [checkTokenExpiry, htok, hdec]

/-- Claim C5 witness: a concrete undecodable token is cleared without a
`logoutReason` write. -/
theorem undecodable_token_fails_closed_witness :
    checkTokenExpiry (fun _ => none) 10
        ⟨some "garbage", some "usr", some "old", true, true, false⟩ =
      (⟨none, none, some "old", true, true, false⟩,
       [Ev.storageRemove "token", Ev.storageRemove "user",
        Ev.navigate "/login"]) := by
  exact (undecodable_token_fails_closed (fun _ => none) 10
    ⟨some "garbage", some "usr", some "old", true, true, false⟩
    "garbage" rfl rfl).1

/-- Claim C10: a stored token that decodes to a payload with no `exp`
claim, or with `exp = 0`, is treated as valid by `checkTokenExpiry`: the
state is unchanged, nothing is written, and no navigation occurs, for
every current time. -/
theorem no_exp_claim_never_expires (decode : String → Option Payload)
    (now : Int) (s : ClientState) (tok : String) (p : Payload)
    (htok : s.token = some tok) (hdec : decode tok = some p)
    (hexp : p.exp = none ∨ p.exp = some 0) :
    checkTokenExpiry decode now s = (s, []) := by
  obtain ⟨tk, us, lr, el, dom, th⟩ := s
  simp only at htok
  rcases hexp with h | h <;> simp [checkTokenExpiry, htok, hdec, h]

/-- Claim C10 witness: a token without an `exp` claim and a token with
`exp = 0` both survive the periodic check unchanged at time 1000000. -/
theorem no_exp_claim_never_expires_witness :
    checkTokenExpiry (fun _ => some (Payload.mk none)) 1000000
        ⟨some "tok", some "usr", none, true, true, false⟩ =
      (⟨some "tok", some "usr", none, true, true, false⟩, []) ∧
    checkTokenExpiry (fun _ => some (Payload.mk (some 0))) 1000000
        ⟨some "tok", some "usr", none, true, true, false⟩ =
      (⟨some "tok", some "usr", none, true, true, false⟩, []) := by
  constructor
  · exact no_exp_claim_never_expires (fun _ => some (Payload.mk none)) 1000000
      ⟨some "tok", some "usr", none, true, true, false⟩ "tok"
      (Payload.mk none) rfl rfl (Or.inl rfl)
  · exact no_exp_claim_never_expires (fun _ => some (Payload.mk (some 0))) 1000000
      ⟨some "tok", some "usr", none, true, true, false⟩ "tok"
      (Payload.mk (some 0)) rfl rfl (Or.inr rfl)

/-- Claim C4 counterexample: with listeners registered and an undecodable
stored token, `checkTokenExpiry` (catch branch, api.js lines 140-146)
deletes the token and user but does NOT deregister the activity listeners —
`eventListenersAdded` stays `true` and the five DOM subscriptions stay
attached after the token has been cleared, and the trace contains no
listener removal. -/
theorem undecodable_token_leaves_listeners_dangling :
    (checkTokenExpiry (fun _ => none) 10
        ⟨some "bad", some "usr", none, true, true, false⟩).1.token = none ∧
    (checkTokenExpiry (fun _ => none) 10
        ⟨some "bad", some "usr", none, true, true, false⟩).1.eventListenersAdded
      = true ∧
    (checkTokenExpiry (fun _ => none) 10
        ⟨some "bad", some "usr", none, true, true, false⟩).1.domSubscribed
      = true ∧
    Ev.removeEventListeners ∉
      (checkTokenExpiry (fun _ => none) 10
        ⟨some "bad", some "usr", none, true, true, false⟩).2 := by
  decide

/-- Claim C4 (amended: the undecodable-token path is excluded — it clears
the token without deregistering): on the expiry-detected path of
`checkTokenExpiry`, on explicit `logout`, and on the interceptor's forced
logout, the activity listeners are deregistered before (in trace order) the
stored token is deleted, and the listener flag ends up `false`. -/
theorem termination_paths_deregister (s : ClientState) :
    (∀ decode now tok p e, s.token = some tok → decode tok = some p →
      (p : Payload).exp = some e → e ≠ 0 → e < (now : Int) →
      ((checkTokenExpiry decode now s).1.eventListenersAdded = false ∧
       (checkTokenExpiry decode now s).2 =
         (if s.eventListenersAdded then [Ev.removeEventListeners] else []) ++
           [Ev.storageRemove "token", Ev.storageRemove "user",
            Ev.storageSet "logoutReason" "session_expired",
            Ev.navigate "/login"]))
  ∧ ((logout s).1.eventListenersAdded = false ∧
     (logout s).2 =
       Ev.apiLogoutPost ::
         (if s.eventListenersAdded then [Ev.removeEventListeners] else []) ++
           [Ev.storageClear])
  ∧ (∀ e : AxiosErrorMeta, urlHitsRefresh e.configUrl = false →
      (e.response.map AxiosResp.status = some 401 ∨
       e.response.map AxiosResp.status = some 403) →
      ((responseInterceptorOnError e s).1.eventListenersAdded = false ∧
       (responseInterceptorOnError e s).2.1 =
         (if s.eventListenersAdded then [Ev.removeEventListeners] else []) ++
           [Ev.storageRemove "token", Ev.storageRemove "user",
            Ev.storageSet "logoutReason" "session_expired", Ev.reload])) := by
  obtain ⟨tk, us, lr, el, dom, th⟩ := s
  refine ⟨?_, ?_, ?_⟩
  · intro decode now tok p e htok hdec hexp hne hlt
    simp only at htok
    cases el <;>
      simp [checkTokenExpiry, htok, hdec, hexp, hne, hlt,
            removeSessionRefreshListeners]
  · cases el <;> simp [logout, removeSessionRefreshListeners]
  · intro e hurl hst
    obtain ⟨r, hr⟩ : ∃ r, e.response = some r := by
      cases h : e.response with
      | none => rcases hst with hc | hc <;> simp [h] at hc
      | some r => exact ⟨r, rfl⟩
    have hstat : r.status = 401 ∨ r.status = 403 := by
      rcases hst with hc | hc
      · left; rw [hr] at hc; simpa using hc
      · right; rw [hr] at hc; simpa using hc
    rcases hstat with h | h <;> cases el <;>
      simp [responseInterceptorOnError, hurl, hr, h,
            removeSessionRefreshListeners]

/-- Claim C4 witness: with listeners registered, the expiry path removes
the listeners before deleting the token, and logout does the same. -/
theorem termination_paths_deregister_witness :
    ((checkTokenExpiry (fun _ => some (Payload.mk (some 5))) 10
        ⟨some "tok", some "usr", none, true, true, false⟩).1.eventListenersAdded
      = false ∧
     (checkTokenExpiry (fun _ => some (Payload.mk (some 5))) 10
        ⟨some "tok", some "usr", none, true, true, false⟩).2 =
       [Ev.removeEventListeners] ++
         [Ev.storageRemove "token", Ev.storageRemove "user",
          Ev.storageSet "logoutReason" "session_expired",
          Ev.navigate "/login"]) ∧
    ((logout ⟨some "tok", some "usr", none, true, true, false⟩).1.eventListenersAdded
      = false ∧
     (logout ⟨some "tok", some "usr", none, true, true, false⟩).2 =
       Ev.apiLogoutPost :: [Ev.removeEventListeners] ++ [Ev.storageClear]) := by
  constructor
  · have h := (termination_paths_deregister
      ⟨some "tok", some "usr", none, true, true, false⟩).1
      (fun _ => some (Payload.mk (some 5))) 10 "tok" (Payload.mk (some 5)) 5
      rfl rfl rfl (by decide) (by decide)
    simpa using h
  · have h := (termination_paths_deregister
      ⟨some "tok", some "usr", none, true, true, false⟩).2.1
    simpa using h

/-- Claim C9: `addSessionRefreshListeners` and
`removeSessionRefreshListeners` are idempotent total functions (so a
deregister on an unregistered state is a no-op and throws nothing):
registering twice from a consistent state yields the same state as
registering once, with the second call a silent no-op and at most one
listener-attachment block in the combined trace; and both operations keep
the `eventListenersAdded` flag equal to the actual DOM subscription
state. -/
theorem listener_idempotence (s : ClientState)
    (hc : s.eventListenersAdded = s.domSubscribed) :
    (addSessionRefreshListeners (addSessionRefreshListeners s).1 =
       ((addSessionRefreshListeners s).1, []))
  ∧ ((addSessionRefreshListeners s).1.eventListenersAdded = true ∧
     (addSessionRefreshListeners s).1.domSubscribed = true ∧
     countAddListenerEvents
       ((addSessionRefreshListeners s).2 ++
        (addSessionRefreshListeners (addSessionRefreshListeners s).1).2) ≤ 1)
  ∧ (s.eventListenersAdded = false → removeSessionRefreshListeners s = (s, []))
  ∧ ((addSessionRefreshListeners s).1.eventListenersAdded =
       (addSessionRefreshListeners s).1.domSubscribed ∧
     (removeSessionRefreshListeners s).1.eventListenersAdded =
       (removeSessionRefreshListeners s).1.domSubscribed) := by
  obtain ⟨tk, us, lr, el, dom, th⟩ := s
  simp only at hc
  subst hc
  cases el <;>
    simp [addSessionRefreshListeners, removeSessionRefreshListeners,
          countAddListenerEvents]

/-- Claim C9 witness: from the unregistered consistent state, register
twice then deregister-on-empty behave as claimed. -/
theorem listener_idempotence_witness :
    (addSessionRefreshListeners
        (addSessionRefreshListeners
          ⟨some "tok", none, none, false, false, false⟩).1 =
      ((addSessionRefreshListeners
          ⟨some "tok", none, none, false, false, false⟩).1, [])) ∧
    removeSessionRefreshListeners ⟨none, none, none, false, false, false⟩ =
      (⟨none, none, none, false, false, false⟩, []) := by
  constructor
  · exact (listener_idempotence ⟨some "tok", none, none, false, false, false⟩
      rfl).1
  · exact (listener_idempotence ⟨none, none, none, false, false, false⟩
      rfl).2.2.1 rfl

/-- Claim C6 counterexample: with an unparsable token string in storage at
startup, the 2-second startup timer registers the listeners anyway (it
checks only that a token is present, api.js lines 230-236), and the
subsequent periodic expiry check clears storage while leaving the
listeners registered — so listeners ARE registered, contradicting the
claimed scenario, and registration after login is synchronous rather than
2 seconds delayed. -/
theorem startup_unparsable_token_registers_listeners :
    ((startupListenerTimer
        ⟨some "not-a-jwt", some "usr", none, false, false, false⟩).1.eventListenersAdded
      = true) ∧
    ((startupListenerTimer
        ⟨some "not-a-jwt", some "usr", none, false, false, false⟩).1.domSubscribed
      = true) ∧
    ((checkTokenExpiry (fun _ => none) 100
        (startupListenerTimer
          ⟨some "not-a-jwt", some "usr", none, false, false, false⟩).1).1 =
      ⟨none, none, none, true, true, false⟩) := by
  decide

/-- Claim C6 (amended: the delays are the other way around, and only token
presence — not validity — is checked): the startup timer, which fires
2000 ms after module load, registers the activity listeners exactly when
some token string is present in storage (parsable or not) and does nothing
otherwise; a successful login registers the listeners synchronously in the
same call, with no delay. -/
theorem listener_registration_conditions (s : ClientState) (d : LoginData) :
    (∀ tok, s.token = some tok →
       startupListenerTimer s = addSessionRefreshListeners s ∧
       (startupListenerTimer s).1.eventListenersAdded = true)
  ∧ (s.token = none → startupListenerTimer s = (s, []))
  ∧ startupListenerDelayMs = 2000
  ∧ ((loginSuccess d s).1.eventListenersAdded = true ∧
     (loginSuccess d s).2 =
       Ev.storageSet "token" d.access_token ::
         Ev.storageSet "user" (Json.stringify (loginUserJson d)) ::
           (if s.eventListenersAdded then [] else [Ev.addEventListeners])) := by
  obtain ⟨tk, us, lr, el, dom, th⟩ := s
  refine ⟨?_, ?_, rfl, ?_⟩
  · intro tok htok
    simp only at htok
    cases el <;>
      simp [startupListenerTimer, addSessionRefreshListeners, htok]
  · intro htok
    simp only at htok
    simp [startupListenerTimer, htok]
  · cases el <;> simp [loginSuccess, addSessionRefreshListeners]

/-- Claim C6 witness: with a token present the startup timer registers the
listeners, and a login from a listener-free state registers them in the
same synchronous trace. -/
theorem listener_registration_conditions_witness :
    (startupListenerTimer
        ⟨some "tok", none, none, false, false, false⟩).1.eventListenersAdded
      = true ∧
    (loginSuccess
        ⟨"t2", .num 1, .str "a@b", .str "A", .str "user", .null, .num 7, .num 9⟩
        ⟨none, none, none, false, false, false⟩).1.eventListenersAdded = true := by
  constructor
  · exact ((listener_registration_conditions
      ⟨some "tok", none, none, false, false, false⟩
      ⟨"t2", .num 1, .str "a@b", .str "A", .str "user", .null, .num 7, .num 9⟩).1
      "tok" rfl).2
  · exact (listener_registration_conditions
      ⟨none, none, none, false, false, false⟩
      ⟨"t2", .num 1, .str "a@b", .str "A", .str "user", .null, .num 7, .num 9⟩).2.2.2.1

/-- Claim C7 counterexample: a stored token that decodes to a payload with
NO `exp` claim has no strictly-future expiry, yet the handler still calls
the refresh endpoint — in JS `remainingTime` is `NaN` and `NaN <= 0` is
false, so the early exit is skipped (api.js lines 173-178). -/
theorem missing_exp_still_calls_refresh :
    (fun _ : String => some (Payload.mk none)) "tok" = some (Payload.mk none) ∧
    (refreshSessionOnActivity (fun _ => some (Payload.mk none)) 100 none
        ⟨some "tok", some "usr", none, true, true, false⟩).2.1 =
      [Ev.apiRefreshPost] := by
  decide

/-- Claim C7 (amended: a payload without a numeric `exp` claim also
reaches the network call): past the throttle gate, the handler with no
stored token deregisters the listeners and exits with no network call; an
undecodable token exits silently with no network call; a token whose `exp`
satisfies `exp - now <= 0` exits silently with no network call; otherwise —
`exp` strictly in the future OR `exp` absent — the refresh endpoint is
called, and exactly when the response carries a truthy `success` flag the
persisted token is overwritten with the newly issued one. -/
theorem refresh_on_activity_spec (decode : String → Option Payload)
    (now : Int) (r : RefreshResult) (s : ClientState)
    (hgate : s.refreshThrottle = false) :
    (s.token = none →
       refreshSessionOnActivity decode now r s =
         ({ s with eventListenersAdded := false,
                   domSubscribed := s.domSubscribed && !s.eventListenersAdded },
          ((if s.eventListenersAdded then [Ev.removeEventListeners] else []),
           none)))
  ∧ (∀ tok, s.token = some tok → decode tok = none →
       refreshSessionOnActivity decode now r s = (s, ([], none)))
  ∧ (∀ tok p e, s.token = some tok → decode tok = some p → p.exp = some e →
       e - now ≤ 0 →
       refreshSessionOnActivity decode now r s = (s, ([], none)))
  ∧ (∀ tok p, s.token = some tok → decode tok = some p →
       (p.exp = none ∨ ∃ e, p.exp = some e ∧ 0 < e - now) →
       refreshSessionOnActivity decode now r s =
         doRefreshCall r { s with refreshThrottle := true } ∧
       (∀ newTok, r = some (true, newTok) →
          (refreshSessionOnActivity decode now r s).1.token = some newTok ∧
          (refreshSessionOnActivity decode now r s).2.1 =
            [Ev.apiRefreshPost, Ev.storageSet "token" newTok]) ∧
       (∀ b newTok, r = some (b, newTok) → b = false →
          (refreshSessionOnActivity decode now r s).1.token = s.token) ∧
       (r = none →
          (refreshSessionOnActivity decode now r s).1.token = s.token)) := by
  obtain ⟨tk, us, lr, el, dom, th⟩ := s
  simp only at hgate
  subst hgate
  refine ⟨?_, ?_, ?_, ?_⟩
  · intro htok
    simp only at htok
    cases el <;>
      simp [refreshSessionOnActivity, htok, removeSessionRefreshListeners]
  · intro tok htok hdec
    simp only at htok
    simp [refreshSessionOnActivity, htok, hdec]
  · intro tok p e htok hdec hexp hle
    simp only at htok
    simp [refreshSessionOnActivity, htok, hdec, hexp, hle]
  · intro tok p htok hdec hfut
    simp only at htok
    have hstep : refreshSessionOnActivity decode now r
        ⟨some tok, us, lr, el, dom, false⟩ =
        doRefreshCall r ⟨some tok, us, lr, el, dom, true⟩ := by
      rcases hfut with h | ⟨e, he, hpos⟩
      · simp [refreshSessionOnActivity, htok, hdec, h]
      · have : ¬ (e - now ≤ 0) := by omega
        simp [refreshSessionOnActivity, htok, hdec, he, this]
    subst htok
    refine ⟨hstep, ?_, ?_, ?_⟩
    · intro newTok hr
      subst hr
      simp [hstep, doRefreshCall]
    · intro b newTok hr hb
      subst hr; subst hb
      simp [hstep, doRefreshCall]
    · intro hr
      subst hr
      simp [hstep, doRefreshCall]

/-- Claim C7 witness: with a future expiry and a successful refresh
response, the call is issued and the persisted token is overwritten; with
an expired token nothing is sent. -/
theorem refresh_on_activity_spec_witness :
    (refreshSessionOnActivity (fun _ => some (Payload.mk (some 200))) 100
        (some (true, "fresh"))
        ⟨some "tok", some "usr", none, true, true, false⟩).1.token =
      some "fresh" ∧
    (refreshSessionOnActivity (fun _ => some (Payload.mk (some 200))) 100
        (some (true, "fresh"))
        ⟨some "tok", some "usr", none, true, true, false⟩).2.1 =
      [Ev.apiRefreshPost, Ev.storageSet "token" "fresh"] ∧
    refreshSessionOnActivity (fun _ => some (Payload.mk (some 50))) 100 none
        ⟨some "tok", some "usr", none, true, true, false⟩ =
      (⟨some "tok", some "usr", none, true, true, false⟩, ([], none)) := by
  refine ⟨?_, ?_, ?_⟩
  · exact (((refresh_on_activity_spec (fun _ => some (Payload.mk (some 200)))
      100 (some (true, "fresh"))
      ⟨some "tok", some "usr", none, true, true, false⟩ rfl).2.2.2 "tok"
      (Payload.mk (some 200)) rfl rfl
      (Or.inr ⟨200, rfl, by decide⟩)).2.1 "fresh" rfl).1
  · exact (((refresh_on_activity_spec (fun _ => some (Payload.mk (some 200)))
      100 (some (true, "fresh"))
      ⟨some "tok", some "usr", none, true, true, false⟩ rfl).2.2.2 "tok"
      (Payload.mk (some 200)) rfl rfl
      (Or.inr ⟨200, rfl, by decide⟩)).2.1 "fresh" rfl).2
  · exact ((refresh_on_activity_spec (fun _ => some (Payload.mk (some 50)))
      100 none ⟨some "tok", some "usr", none, true, true, false⟩ rfl).2.2.1
      "tok" (Payload.mk (some 50)) 50 rfl rfl rfl (by decide))

/-- Helper: `countRefreshCalls` distributes over trace concatenation. -/
theorem countRefreshCalls_append (a b : List Ev) :
    countRefreshCalls (a ++ b) = countRefreshCalls a + countRefreshCalls b := by
  simp [countRefreshCalls, List.countP_append]

/-- Helper: while the throttle gate is closed, an activity signal is
dropped silently — no state change, no trace, no timer. -/
theorem refresh_gate_closed_lemma (decode : String → Option Payload)
    (t : Int) (r : RefreshResult) (s : ClientState)
    (h : s.refreshThrottle = true) :
    refreshSessionOnActivity decode t r s = (s, ([], none)) := by
  simp [refreshSessionOnActivity, h]

/-- Helper: a whole window of signals against a closed gate does nothing. -/
theorem run_gate_closed_lemma (decode : String → Option Payload)
    (sigs : List ActivitySignal) (s : ClientState)
    (h : s.refreshThrottle = true) :
    runActivity decode sigs s = (s, []) := by
  induction sigs with
  | nil => rfl
  | cons sig rest ih =>
    obtain ⟨t, r⟩ := sig
    simp [runActivity, refresh_gate_closed_lemma decode t r s h, ih]

/-- Helper: the no-token early exit removes the listeners, reopens the
gate at once, schedules no cooldown, and issues no network call. -/
theorem refresh_no_token_lemma (decode : String → Option Payload)
    (t : Int) (r : RefreshResult) (s : ClientState)
    (hg : s.refreshThrottle = false) (ht : s.token = none) :
    (refreshSessionOnActivity decode t r s).1.token = none ∧
    (refreshSessionOnActivity decode t r s).1.refreshThrottle = false ∧
    (refreshSessionOnActivity decode t r s).2.2 = none ∧
    countRefreshCalls (refreshSessionOnActivity decode t r s).2.1 = 0 := by
  obtain ⟨tk, us, lr, el, dom, th⟩ := s
  simp only at hg ht
  subst hg; subst ht
  cases el <;>
    simp [refreshSessionOnActivity, removeSessionRefreshListeners,
          countRefreshCalls]

/-- Helper: with no token stored, a whole window of signals issues no
network call. -/
theorem run_no_token_lemma (decode : String → Option Payload)
    (sigs : List ActivitySignal) :
    ∀ s : ClientState, s.token = none →
    countRefreshCalls (runActivity decode sigs s).2 = 0 := by
  induction sigs with
  | nil => intro s _; simp [runActivity, countRefreshCalls]
  | cons sig rest ih =>
    intro s ht
    obtain ⟨t, r⟩ := sig
    cases hg : s.refreshThrottle with
    | true =>
      simp only [runActivity, refresh_gate_closed_lemma decode t r s hg,
                 countRefreshCalls_append]
      simpa [countRefreshCalls] using ih s ht
    | false =>
      obtain ⟨h1, _, _, h4⟩ := refresh_no_token_lemma decode t r s hg ht
      simp only [runActivity, countRefreshCalls_append]
      rw [h4, ih _ h1]

/-- Helper: an undecodable token exits silently, reopening the gate and
leaving the state exactly as it was. -/
theorem refresh_decode_fail_lemma (decode : String → Option Payload)
    (t : Int) (r : RefreshResult) (s : ClientState) (tok : String)
    (hg : s.refreshThrottle = false) (ht : s.token = some tok)
    (hd : decode tok = none) :
    refreshSessionOnActivity decode t r s = (s, ([], none)) := by
  obtain ⟨tk, us, lr, el, dom, th⟩ := s
  simp only at hg ht
  subst hg; subst ht
  simp [refreshSessionOnActivity, hd]

/-- Helper: with an undecodable stored token, a whole window of signals
leaves the state unchanged and issues no network call. -/
theorem run_decode_fail_lemma (decode : String → Option Payload)
    (sigs : List ActivitySignal) (tok : String) (hd : decode tok = none) :
    ∀ s : ClientState, s.token = some tok →
    runActivity decode sigs s = (s, []) := by
  induction sigs with
  | nil => intro s _; rfl
  | cons sig rest ih =>
    intro s ht
    obtain ⟨t, r⟩ := sig
    cases hg : s.refreshThrottle with
    | true =>
      simp [runActivity, refresh_gate_closed_lemma decode t r s hg, ih s ht]
    | false =>
      simp [runActivity, refresh_decode_fail_lemma decode t r s tok hg ht hd,
            ih s ht]

/-- Helper: a token whose `exp` is not strictly in the future exits
silently, reopening the gate and leaving the state exactly as it was. -/
theorem refresh_expired_lemma (decode : String → Option Payload)
    (t : Int) (r : RefreshResult) (s : ClientState) (tok : String)
    (p : Payload) (e : Int)
    (hg : s.refreshThrottle = false) (ht : s.token = some tok)
    (hd : decode tok = some p) (he : p.exp = some e) (hle : e - t ≤ 0) :
    refreshSessionOnActivity decode t r s = (s, ([], none)) := by
  obtain ⟨tk, us, lr, el, dom, th⟩ := s
  simp only at hg ht
  subst hg; subst ht
  simp [refreshSessionOnActivity, hd, he, hle]

/-- Helper: once the token is expired relative to every remaining signal
time, a whole window of signals leaves the state unchanged and issues no
network call. -/
theorem run_expired_lemma (decode : String → Option Payload)
    (sigs : List ActivitySignal) (tok : String) (p : Payload) (e : Int)
    (hd : decode tok = some p) (he : p.exp = some e) :
    ∀ s : ClientState, s.token = some tok →
    (∀ q ∈ sigs, e ≤ (q : ActivitySignal).1) →
    runActivity decode sigs s = (s, []) := by
  induction sigs with
  | nil => intro s _ _; rfl
  | cons sig rest ih =>
    intro s ht hall
    obtain ⟨t, r⟩ := sig
    have hle : e - t ≤ 0 := by
      have := hall (t, r) (by simp)
      omega
    have htail : ∀ q ∈ rest, e ≤ (q : ActivitySignal).1 := by
      intro q hq
      exact hall q (by simp [hq])
    cases hg : s.refreshThrottle with
    | true =>
      simp [runActivity, refresh_gate_closed_lemma decode t r s hg,
            ih s ht htail]
    | false =>
      simp [runActivity,
            refresh_expired_lemma decode t r s tok p e hg ht hd he hle,
            ih s ht htail]

/-- Helper: the completed-attempt path issues exactly one refresh call,
leaves the gate closed, and schedules the 30-second cooldown timer. -/
theorem refresh_call_lemma (decode : String → Option Payload)
    (t : Int) (r : RefreshResult) (s : ClientState) (tok : String)
    (p : Payload)
    (hg : s.refreshThrottle = false) (ht : s.token = some tok)
    (hd : decode tok = some p)
    (hfut : ∀ e, p.exp = some e → ¬ (e - t ≤ 0)) :
    (refreshSessionOnActivity decode t r s).1.refreshThrottle = true ∧
    countRefreshCalls (refreshSessionOnActivity decode t r s).2.1 = 1 ∧
    (refreshSessionOnActivity decode t r s).2.2 = some refreshCooldownMs := by
  obtain ⟨tk, us, lr, el, dom, th⟩ := s
  simp only at hg ht
  subst hg; subst ht
  cases hexp : p.exp with
  | none =>
    rcases r with _ | ⟨b, nt⟩ <;> try cases b
    all_goals
      simp [refreshSessionOnActivity, hd, hexp, doRefreshCall,
            countRefreshCalls]
  | some e =>
    have hne := hfut e hexp
    rcases r with _ | ⟨b, nt⟩ <;> try cases b
    all_goals
      simp [refreshSessionOnActivity, hd, hexp, hne, doRefreshCall,
            countRefreshCalls]

/-- Claim C3: over any sequence of activity signals delivered in
nondecreasing time order within one throttle window (no cooldown timer
firing in between), at most one refresh network call is issued; moreover
the gate drops signals silently while closed, is cleared immediately with
no scheduled cooldown on each early-exit path (no token, undecodable
token, expired token), and after a completed refresh attempt (success or
failure alike) it stays closed with a scheduled 30000 ms cooldown. -/
theorem refresh_throttle_at_most_one_call (decode : String → Option Payload)
    (sigs : List ActivitySignal) (s : ClientState)
    (hsorted : sigs.Pairwise (fun a b => a.1 ≤ b.1)) :
    countRefreshCalls (runActivity decode sigs s).2 ≤ 1
  ∧ (∀ t r s', (s' : ClientState).refreshThrottle = true →
       refreshSessionOnActivity decode t r s' = (s', ([], none)))
  ∧ (∀ t r s', (s' : ClientState).refreshThrottle = false →
       s'.token = none →
       (refreshSessionOnActivity decode t r s').1.refreshThrottle = false ∧
       (refreshSessionOnActivity decode t r s').2.2 = none ∧
       countRefreshCalls (refreshSessionOnActivity decode t r s').2.1 = 0)
  ∧ (∀ t r s' tok, (s' : ClientState).refreshThrottle = false →
       s'.token = some tok → decode tok = none →
       refreshSessionOnActivity decode t r s' = (s', ([], none)))
  ∧ (∀ t r s' tok p e, (s' : ClientState).refreshThrottle = false →
       s'.token = some tok → decode tok = some p → p.exp = some e →
       e - t ≤ 0 →
       refreshSessionOnActivity decode t r s' = (s', ([], none)))
  ∧ (∀ t r s' tok p, (s' : ClientState).refreshThrottle = false →
       s'.token = some tok → decode tok = some p →
       (∀ e, p.exp = some e → ¬ (e - t ≤ 0)) →
       (refreshSessionOnActivity decode t r s').1.refreshThrottle = true ∧
       (refreshSessionOnActivity decode t r s').2.2 = some refreshCooldownMs ∧
       refreshCooldownMs = 30000) := by
  have main : ∀ (l : List ActivitySignal),
      l.Pairwise (fun a b => a.1 ≤ b.1) →
      ∀ st : ClientState, countRefreshCalls (runActivity decode l st).2 ≤ 1 := by
    intro l
    induction l with
    | nil => intro _ st; simp [runActivity, countRefreshCalls]
    | cons sig rest ih =>
      intro hp st
      obtain ⟨t, r⟩ := sig
      have hhead : ∀ q ∈ rest, t ≤ (q : ActivitySignal).1 :=
        (List.pairwise_cons.mp hp).1
      have htail := (List.pairwise_cons.mp hp).2
      cases hg : st.refreshThrottle with
      | true =>
        simp only [runActivity, refresh_gate_closed_lemma decode t r st hg,
                   countRefreshCalls_append]
        simpa [countRefreshCalls] using ih htail st
      | false =>
        cases htok : st.token with
        | none =>
          obtain ⟨h1, _, _, h4⟩ := refresh_no_token_lemma decode t r st hg htok
          simp only [runActivity, countRefreshCalls_append]
          rw [h4, run_no_token_lemma decode rest _ h1]
          omega
        | some tok =>
          cases hdec : decode tok with
          | none =>
            simp only [runActivity,
                       refresh_decode_fail_lemma decode t r st tok hg htok hdec,
                       countRefreshCalls_append,
                       run_decode_fail_lemma decode rest tok hdec st htok]
            simp [countRefreshCalls]
          | some p =>
            cases hexp : p.exp with
            | some e =>
              by_cases hle : e - t ≤ 0
              · have hrest := run_expired_lemma decode rest tok p e hdec hexp
                  st htok (fun q hq => by have := hhead q hq; omega)
                simp only [runActivity,
                           refresh_expired_lemma decode t r st tok p e hg htok
                             hdec hexp hle,
                           countRefreshCalls_append, hrest]
                simp [countRefreshCalls]
              · have hfut : ∀ e', p.exp = some e' → ¬ (e' - t ≤ 0) := by
                  intro e' he'
                  rw [hexp] at he'
                  cases he'
                  exact hle
                obtain ⟨hth, hcnt, _⟩ :=
                  refresh_call_lemma decode t r st tok p hg htok hdec hfut
                have hrest := run_gate_closed_lemma decode rest _ hth
                simp only [runActivity, countRefreshCalls_append]
                rw [hcnt, hrest]
                simp [countRefreshCalls]
            | none =>
              have hfut : ∀ e', p.exp = some e' → ¬ (e' - t ≤ 0) := by
                intro e' he'
                rw [hexp] at he'
                cases he'
              obtain ⟨hth, hcnt, _⟩ :=
                refresh_call_lemma decode t r st tok p hg htok hdec hfut
              have hrest := run_gate_closed_lemma decode rest _ hth
              simp only [runActivity, countRefreshCalls_append]
              rw [hcnt, hrest]
              simp [countRefreshCalls]
  refine ⟨main sigs hsorted s, ?_, ?_, ?_, ?_, ?_⟩
  · intro t r s' h
    exact refresh_gate_closed_lemma decode t r s' h
  · intro t r s' hg ht
    obtain ⟨_, h2, h3, h4⟩ := refresh_no_token_lemma decode t r s' hg ht
    exact ⟨h2, h3, h4⟩
  · intro t r s' tok hg ht hd
    exact refresh_decode_fail_lemma decode t r s' tok hg ht hd
  · intro t r s' tok p e hg ht hd he hle
    exact refresh_expired_lemma decode t r s' tok p e hg ht hd he hle
  · intro t r s' tok p hg ht hd hfut
    obtain ⟨h1, _, h3⟩ := refresh_call_lemma decode t r s' tok p hg ht hd hfut
    exact ⟨h1, h3, rfl⟩

/-- Claim C3 witness: three activity signals inside one window — the first
issues the single refresh call, the later two are dropped by the closed
gate. -/
theorem refresh_throttle_at_most_one_call_witness :
    countRefreshCalls
      (runActivity (fun _ => some (Payload.mk (some 200)))
        [(100, some (true, "n1")), (110, some (true, "n2")), (120, none)]
        ⟨some "tok", some "usr", none, true, true, false⟩).2 ≤ 1 := by
  exact (refresh_throttle_at_most_one_call
    (fun _ => some (Payload.mk (some 200)))
    [(100, some (true, "n1")), (110, some (true, "n2")), (120, none)]
    ⟨some "tok", some "usr", none, true, true, false⟩
    (by decide)).1

/-- Claim C8 counterexample: `getChatSessions` and `getSessionMessages` do
NOT reject on server errors — their catch blocks resolve with an empty
array (api.js lines 608-626), so not every API operation rejects with a
string-carrying error object. -/
theorem get_chat_sessions_swallows_errors :
    getChatSessions
        (.error ⟨some "/sessions",
                 some ⟨500, some (.obj [("detail", .str "boom")])⟩,
                 "Request failed"⟩) =
      .resolved (.arr []) ∧
    getSessionMessages
        (.error ⟨some "/sessions/1/messages", none, "Network Error"⟩) =
      .resolved (.arr []) := by
  exact ⟨rfl, rfl⟩

/-- Helper: on a 422 detail list whose items carry truthy `msg` strings,
the item-by-item selection followed by `join(", ")` is exactly the
comma-space join of those messages. -/
theorem jsJoin_item422_lemma (msgs : List String)
    (h : ∀ x ∈ msgs, x ≠ "") :
    jsJoin ", "
        ((msgs.map (fun x => Json.obj [("msg", Json.str x)])).map item422Msg) =
      joinedMsgs msgs := by
  induction msgs with
  | nil => rfl
  | cons m rest ih =>
    have hm : m ≠ "" := h m (by simp)
    have hrest : ∀ x ∈ rest, x ≠ "" := fun x hx => h x (by simp [hx])
    have hitem : item422Msg (Json.obj [("msg", Json.str m)]) = Json.str m := by
      simp [item422Msg, jsGet, List.lookup, jsTruthyOpt, Json.truthy, hm]
    cases rest with
    | nil =>
      simp [jsJoin, hitem, Json.jsString, joinedMsgs]
    | cons n rest2 =>
      simp only [List.map_cons] at ih ⊢
      simp only [jsJoin, hitem, joinedMsgs]
      rw [ih hrest]
      simp [Json.jsString]

/-- Claim C8 (amended: operations that reject do so with a single string
message, and the structured-422 flattening happens in
`extractErrorMessage`, used by the password endpoints; but the
chat-history read operations never reject at all — on any error they
resolve with an empty array): a 422 response whose `detail` is a list of
objects with nonempty `msg` strings is flattened to the comma-space join
of those messages; a truthy string `detail` is returned verbatim; a truthy
string `message` field is returned verbatim; with no response at all the
nonempty `error.message` (else the operation default) is used; the
password endpoints reject with exactly this extracted string; and
`getChatSessions` / `getSessionMessages` resolve with `[]` on every
error. -/
theorem error_message_shapes (url : Option String) (m dflt : String)
    (status : Int) (msgs : List String) (ds ms : String)
    (err : AxiosErrorMeta) :
    ((∀ x ∈ msgs, x ≠ "") →
      extractErrorMessage
          ⟨url, some ⟨422, some (.obj [("detail",
              .arr (msgs.map (fun x => Json.obj [("msg", Json.str x)])))])⟩,
           m⟩ dflt =
        joinedMsgs msgs) ∧
    (ds ≠ "" →
      extractErrorMessage
          ⟨url, some ⟨status, some (.obj [("detail", .str ds)])⟩, m⟩ dflt =
        ds) ∧
    (ms ≠ "" →
      extractErrorMessage
          ⟨url, some ⟨status, some (.obj [("message", .str ms)])⟩, m⟩ dflt =
        ms) ∧
    (extractErrorMessage ⟨url, none, m⟩ dflt =
      if m ≠ "" then m else dflt) ∧
    (setPassword (.error err) =
      .rejected (extractErrorMessage err "Failed to set password")) ∧
    (getChatSessions (.error err) = .resolved (.arr []) ∧
     getSessionMessages (.error err) = .resolved (.arr [])) := by
  refine ⟨?_, ?_, ?_, ?_, rfl, rfl, rfl⟩
  · intro h
    simp only [extractErrorMessage, jsGet, List.lookup, jsTruthyOpt,
               Json.truthy, isJsonArr, jsGetArr]
    simp only [beq_self_eq_true, if_pos]
    rw [if_pos (show True ∧ True ∧ True from ⟨trivial, trivial, trivial⟩)]
    exact jsJoin_item422_lemma msgs h
  · intro hds
    simp [extractErrorMessage, jsGet, List.lookup, jsTruthyOpt,
          Json.truthy, isJsonArr, isJsonStr, jsGetStr, hds]
  · intro hms
    simp [extractErrorMessage, jsGet, List.lookup, jsTruthyOpt,
          Json.truthy, isJsonArr, isJsonStr, jsGetStr, hms]
  · by_cases hm : m = "" <;> simp [extractErrorMessage, hm]

/-- Claim C8 witness: the two-field 422 validation error is flattened to
"bad email, bad pw", and a network error with empty message falls back to
the operation default. -/
theorem error_message_shapes_witness :
    extractErrorMessage
        ⟨some "/auth/set-password", some ⟨422, some (.obj [("detail",
            .arr [Json.obj [("msg", Json.str "bad email")],
                  Json.obj [("msg", Json.str "bad pw")]])])⟩,
         "Request failed"⟩ "Failed to set password" =
      "bad email, bad pw" ∧
    extractErrorMessage
        ⟨some "/auth/set-password", none, ""⟩ "Failed to set password" =
      "Failed to set password" := by
  constructor
  · have h := (error_message_shapes (some "/auth/set-password")
      "Request failed" "Failed to set password" 422
      ["bad email", "bad pw"] "" "" ⟨none, none, ""⟩).1
      (by intro x hx; fin_cases hx <;> decide)
    simpa [joinedMsgs] using h
  · have h := (error_message_shapes (some "/auth/set-password")
      "" "Failed to set password" 422 [] "" "" ⟨none, none, ""⟩).2.2.2.1
    simpa using h
